import Mathlib

/-!
Verification of the request/response protocol adapter in
`src/pages/api/prerender.ts` (a Vercel serverless function adapting the
Next.js `NextApiRequest`/`NextApiResponse` pair to the express-style
`req`/`res`/`next` interface expected by the `prerendercloud` middleware).

The embedding models:
- the outer `NextApiResponse` as an explicit record (`OuterRes`) with the
  methods the source uses: `status`, `setHeader`, `send`, `redirect`;
- the adapter response view (the `res` object literal) as a state
  (`ViewState`) holding the closure-captured `headers` dict, the recorded
  `status`, the outer response, and the number of times `callWhenDone`
  (the resolver of `waitForPromise`) has been invoked;
- header dictionaries as association lists where setting prepends and
  reading takes the most recent entry (JS object write-overwrites);
- failure (`throw new Error(...)`) as `Except`, with the error carrying
  the state at the moment of the throw;
- the rendering client (`prerendercloud(req, res, next)`) abstractly as a
  `ClientAction`: either it renders (calls `writeHead` then `end`) or it
  declines (calls `next`, whose outbound fetch result is a parameter).
-/

namespace Prerender

/-- JS string-valued dictionary observation: the most recently set binding
for a key, `none` when the key was never set. -/
def headerGet (hs : List (String × String)) (k : String) : Option String :=
  (hs.find? (fun p => p.1 == k)).map (fun p => p.2)

/-- JS dictionary write `headers[key] = val`: later writes shadow earlier
ones (the list is read through `headerGet`). -/
def headerSet (hs : List (String × String)) (k v : String) : List (String × String) :=
  (k, v) :: hs

/-- The outer `NextApiResponse`, reduced to the state the source file
observes and mutates. -/
structure OuterRes where
  statusCode : Option Nat
  headers : List (String × String)
  body : Option String
  redirectedTo : Option String
deriving DecidableEq

/-- `nextApiRes.status(n)`. -/
def OuterRes.status (r : OuterRes) (n : Nat) : OuterRes :=
  { r with statusCode := some n }

/-- `nextApiRes.setHeader(key, val)`. -/
def OuterRes.setHeader (r : OuterRes) (k v : String) : OuterRes :=
  { r with headers := headerSet r.headers k v }

/-- `nextApiRes.send(body)`. -/
def OuterRes.send (r : OuterRes) (b : String) : OuterRes :=
  { r with body := some b }

/-- `nextApiRes.redirect(location)`. -/
def OuterRes.redirect (r : OuterRes) (loc : String) : OuterRes :=
  { r with redirectedTo := some loc }

/-- `const CACHE_CONTROL_MAX_AGE_SECONDS = 60 * 60 * 24;` -/
def CACHE_CONTROL_MAX_AGE_SECONDS : Nat := 60 * 60 * 24

/-- The template literal written by `end` on the non-redirect path. -/
def cacheControlHeaderValue : String :=
  "max-age=0, s-maxage=" ++ toString CACHE_CONTROL_MAX_AGE_SECONDS ++
    ", stale-while-revalidate"

/-- State of the adapter response view built by
`convertNextJsToReqResNextHandler`: the closure-captured `headers` dict and
`status`, the wrapped outer response, and how many times the completion
resolver `callWhenDone` has fired. -/
structure ViewState where
  headers : List (String × String)
  status : Option Nat
  resolveCount : Nat
  outer : OuterRes
deriving DecidableEq

/-- `res.getHeader(key)`. -/
def ViewState.getHeader (s : ViewState) (k : String) : Option String :=
  headerGet s.headers k

/-- `res.setHeader(key, val)`: stores into the view dict and mirrors to the
outer response. -/
def ViewState.setHeader (s : ViewState) (k v : String) : ViewState :=
  { s with
    headers := headerSet s.headers k v
    outer := s.outer.setHeader k v }

/-- JS truthiness of a possibly-undefined header value: `!header` is true
exactly for `undefined` and the empty string. -/
def truthy : Option String → Bool
  | none => false
  | some v => v != ""

/-- The `Object.keys(_headers).forEach` loop in `writeHead`: falsy values
are skipped, the rest go through `this.setHeader`. -/
def applyHeaders (s : ViewState) : List (String × Option String) → ViewState
  | [] => s
  | (k, v) :: rest =>
    if truthy v then applyHeaders (s.setHeader k (v.getD "")) rest
    else applyHeaders s rest

/-- `res.writeHead(_status, _headers)`: records the status, applies it to
the outer response, then applies each truthy header via `setHeader`. -/
def ViewState.writeHead (s : ViewState) (st : Nat)
    (hs : List (String × Option String)) : ViewState :=
  applyHeaders
    { s with status := some st, outer := s.outer.status st } hs

/-- `res.end(body)`. On recorded status 301 it reads the stored `location`
header and throws `no location header` when that read is falsy — the JS
check `if (!location)` fires both when the key is absent and when the
stored value is the empty string — and otherwise redirects to it; on any
other status it sets the fixed `Cache-Control` header directly on the
outer response and sends the body. Both non-throwing paths invoke
`callWhenDone` once. An error carries the state at the moment of the
throw. -/
def ViewState.end' (s : ViewState) (body : String) :
    Except (String × ViewState) ViewState :=
  if s.status = some 301 then
    if truthy (headerGet s.headers "location") then
      .ok { s with
            outer := s.outer.redirect ((headerGet s.headers "location").getD "")
            resolveCount := s.resolveCount + 1 }
    else .error ("no location header", s)
  else
    .ok { s with
          outer := (s.outer.setHeader "Cache-Control" cacheControlHeaderValue).send body
          resolveCount := s.resolveCount + 1 }

/-- The `next` closure. Its outbound `_got` fetch is abstracted by its
result: `.ok body` (response body) or `.error e` (with `e` the error's
string representation, `err.toString()`). On success the body is sent with
no status change; on failure status 500 is set and the error text sent.
Either way `callWhenDone` fires once. -/
def next' (s : ViewState) (fetchResult : Except String String) : ViewState :=
  match fetchResult with
  | .ok b =>
    { s with outer := s.outer.send b, resolveCount := s.resolveCount + 1 }
  | .error e =>
    { s with outer := (s.outer.status 500).send e
             resolveCount := s.resolveCount + 1 }

/-- The inbound `NextApiRequest`, reduced to the fields the source reads.
All are possibly-undefined strings. -/
structure InboundReq where
  url : Option String
  method : Option String
  host : Option String
  userAgent : Option String
deriving DecidableEq

/-- The `connection` object of the adapter request view. -/
structure Connection where
  encrypted : Bool
deriving DecidableEq

/-- The `req` object literal handed to the rendering client. -/
structure ReqView where
  connection : Connection
  method : Option String
  originalUrl : Option String
  url : Option String
  host : Option String
  userAgent : Option String
deriving DecidableEq

/-- `leadsWith pat s` holds when `pat` occurs at the front of `s`
(character lists). -/
def leadsWith : List Char → List Char → Bool
  | [], _ => true
  | _ :: _, [] => false
  | p :: ps, c :: cs => p == c && leadsWith ps cs

/-- `occursIn pat s` holds when `pat` occurs contiguously anywhere in `s`
(character lists). -/
def occursIn (pat : List Char) : List Char → Bool
  | [] => pat.isEmpty
  | c :: cs => leadsWith pat (c :: cs) || occursIn pat cs

/-- JS `s.includes(pat)`: contiguous substring containment. -/
def includes (s pat : String) : Bool :=
  occursIn pat.toList s.toList

/-- JS `s.startsWith(pat)`, over the character lists of the strings. -/
def startsWith' (s pat : String) : Bool :=
  leadsWith pat.toList s.toList

/-- `nextApiReq.headers.host?.includes("localhost")` with JS optional
chaining: an undefined host yields undefined, which is falsy. -/
def hostIncludesLocalhost (host : Option String) : Bool :=
  match host with
  | some h => includes h "localhost"
  | none => false

/-- The `protocol` local of `convertNextJsToReqResNextHandler`. -/
def protocolFor (r : InboundReq) : String :=
  if hostIncludesLocalhost r.host then "http" else "https"

/-- The `originallyRequestedUrlWithProtocolAndHost` template literal
(JS interpolates `undefined` as the text "undefined"). -/
def originallyRequestedUrlWithProtocolAndHost (r : InboundReq) : String :=
  protocolFor r ++ "://" ++ (r.host.getD "undefined") ++ (r.url.getD "undefined")

/-- The `req` object literal built by `convertNextJsToReqResNextHandler`:
`connection: { encrypted: true }`, method, `originalUrl`/`url` both set to
`nextApiReq.url`, and the host and user-agent headers. -/
def convertReq (r : InboundReq) : ReqView :=
  { connection := { encrypted := true }
    method := r.method
    originalUrl := r.url
    url := r.url
    host := r.host
    userAgent := r.userAgent }

/-- A fresh outer response, as the serverless runtime hands it over. -/
def freshOuter : OuterRes :=
  { statusCode := none, headers := [], body := none, redirectedTo := none }

/-- The view state as `convertNextJsToReqResNextHandler` creates it: empty
header dict, unset status, unresolved completion signal. -/
def initialView (outer : OuterRes) : ViewState :=
  { headers := [], status := none, resolveCount := 0, outer }

/-- Abstraction of what `prerendercloud(req, res, next)` does with the view:
either it renders (one `writeHead` with a status and headers, then one `end`
with a body), or it declines and calls `next` (whose fetch outcome is the
payload). -/
inductive ClientAction where
  | render (status : Nat) (headers : List (String × Option String)) (body : String)
  | decline (fetchResult : Except String String)

/-- Runs the abstracted rendering client against the view. The request
view is built (as in the source) but the client abstraction does not
inspect it beyond receiving it. -/
def runClient (_rv : ReqView) (s : ViewState) (a : ClientAction) :
    Except (String × ViewState) ViewState :=
  match a with
  | .render st hs b => (s.writeHead st hs).end' b
  | .decline fr => .ok (next' s fr)

/-- Result of one invocation of the exported `handler`: the final outer
response, whether the rendering client was invoked, whether the returned
promise is resolved, and a propagated error when `end` threw. -/
structure HandlerResult where
  outer : OuterRes
  clientInvoked : Bool
  completed : Bool
  errored : Option String
deriving DecidableEq

/-- The guard condition
`nextApiReq.url && nextApiReq.url.startsWith("/api/prerender")`. -/
def guardTriggers (r : InboundReq) : Bool :=
  match r.url with
  | some u => startsWith' u "/api/prerender"
  | none => false

/-- The exported `handler`: the self-recursion guard short-circuits with
404 "not found" and an already-resolved promise; otherwise the adapter is
built and the rendering client runs. On the adapter path the returned
promise is resolved exactly when `callWhenDone` has fired. -/
def handler (outerInit : OuterRes) (r : InboundReq) (a : ClientAction) :
    HandlerResult :=
  if guardTriggers r then
    { outer := (outerInit.status 404).send "not found"
      clientInvoked := false
      completed := true
      errored := none }
  else
    match runClient (convertReq r) (initialView outerInit) a with
    | .ok s' =>
      { outer := s'.outer
        clientInvoked := true
        completed := s'.resolveCount != 0
        errored := none }
    | .error (e, s'') =>
      { outer := s''.outer
        clientInvoked := true
        completed := s''.resolveCount != 0
        errored := some e }

/-! Concrete fixtures used by witnesses and counterexamples. -/

/-- A view mid-request with a non-301 status and a `Cache-Control` header
already set earlier in the same request (both in the view dict and mirrored
on the outer response). -/
def sampleNon301 : ViewState :=
  { headers := [("Cache-Control", "no-store")]
    status := some 200
    resolveCount := 0
    outer := { statusCode := some 200
               headers := [("Cache-Control", "no-store")]
               body := none
               redirectedTo := none } }

/-- A view mid-request with status 301 and a stored `location` header. -/
def sample301WithLocation : ViewState :=
  { headers := [("location", "/canonical-page")]
    status := some 301
    resolveCount := 0
    outer := { statusCode := some 301
               headers := [("location", "/canonical-page")]
               body := none
               redirectedTo := none } }

/-- A view mid-request with status 301 and no stored `location` header. -/
def sample301NoLocation : ViewState :=
  { headers := [], status := some 301, resolveCount := 0, outer := freshOuter }

/-- A view mid-request with status 301 whose header map stores the
`location` key with the empty string as its value (reachable through the
view's `setHeader`, which stores any string without a truthiness check). -/
def sample301EmptyLocation : ViewState :=
  { headers := [("location", "")]
    status := some 301
    resolveCount := 0
    outer := { statusCode := some 301
               headers := [("location", "")]
               body := none
               redirectedTo := none } }

/-- A typical bot request for an ordinary page. -/
def sampleReq : InboundReq :=
  { url := some "/asset/bitcoin"
    method := some "GET"
    host := some "messari.io"
    userAgent := some "twitterbot" }

/-- The same request as served in development, with a localhost host. -/
def sampleLocalReq : InboundReq :=
  { url := some "/asset/bitcoin"
    method := some "GET"
    host := some "localhost:3000"
    userAgent := some "twitterbot" }

/-- A request for the adapter's own endpoint path. -/
def sampleGuardReq : InboundReq :=
  { url := some "/api/prerender"
    method := some "GET"
    host := some "messari.io"
    userAgent := some "twitterbot" }

/-- A request whose url strictly extends the adapter's endpoint path. -/
def samplePrefixReq : InboundReq :=
  { url := some "/api/prerender/asset/bitcoin"
    method := some "GET"
    host := some "messari.io"
    userAgent := some "twitterbot" }

/-- A request with an undefined url field. -/
def sampleNoUrlReq : InboundReq :=
  { url := none
    method := some "GET"
    host := some "messari.io"
    userAgent := some "twitterbot" }

/-- A rendering-client behavior: status 200 with one header and a body. -/
def sampleAction : ClientAction :=
  .render 200 [("content-type", some "text/html")] "<html>ok</html>"

/-- A header dict (unique keys, as a JS object has) mixing truthy, empty
and undefined values. -/
def sampleHeadersList : List (String × Option String) :=
  [("content-type", some "text/html"), ("x-empty", some ""), ("x-missing", none)]

/-! Helper lemmas about the header dictionary and the `writeHead` loop. -/

theorem headerGet_set_self (hs : List (String × String)) (k v : String) :
    headerGet (headerSet hs k v) k = some v := by
  simp [headerGet, headerSet]

theorem headerGet_set_ne (hs : List (String × String)) (k k' v : String)
    (h : k' ≠ k) : headerGet (headerSet hs k' v) k = headerGet hs k := by
  simp [headerGet, headerSet, h]

theorem getHeader_setHeader_self (s : ViewState) (k v : String) :
    (s.setHeader k v).getHeader k = some v ∧
    headerGet (s.setHeader k v).outer.headers k = some v := by
  constructor <;>
    simp [ViewState.setHeader, ViewState.getHeader, OuterRes.setHeader,
      headerGet_set_self]

theorem getHeader_setHeader_ne (s : ViewState) (k k' v : String) (h : k' ≠ k) :
    (s.setHeader k' v).getHeader k = s.getHeader k ∧
    headerGet (s.setHeader k' v).outer.headers k = headerGet s.outer.headers k := by
  constructor <;>
    simp [ViewState.setHeader, ViewState.getHeader, OuterRes.setHeader,
      headerGet_set_ne _ _ _ _ h]

theorem applyHeaders_status (hs : List (String × Option String)) (s : ViewState) :
    (applyHeaders s hs).status = s.status ∧
    (applyHeaders s hs).outer.statusCode = s.outer.statusCode := by
  induction hs generalizing s with
  | nil => exact ⟨rfl, rfl⟩
  | cons p rest ih =>
    obtain ⟨k, v⟩ := p
    by_cases ht : truthy v = true
    · rw [applyHeaders, if_pos ht]
      exact ih _
    · rw [applyHeaders, if_neg ht]
      exact ih _

theorem applyHeaders_skip (hs : List (String × Option String)) (s : ViewState)
    (k : String) (h : ∀ v, (k, v) ∈ hs → truthy v = false) :
    (applyHeaders s hs).getHeader k = s.getHeader k ∧
    headerGet (applyHeaders s hs).outer.headers k = headerGet s.outer.headers k := by
  induction hs generalizing s with
  | nil => exact ⟨rfl, rfl⟩
  | cons p rest ih =>
    obtain ⟨k', v'⟩ := p
    by_cases ht : truthy v' = true
    · have hk : k' ≠ k := by
        intro he
        subst he
        exact absurd (h v' (List.mem_cons_self _ _)) (by simp [ht])
      rw [applyHeaders, if_pos ht]
      have hrec := ih (s.setHeader k' (v'.getD ""))
        (fun v hv => h v (List.mem_cons_of_mem _ hv))
      have hset := getHeader_setHeader_ne s k k' (v'.getD "") hk
      exact ⟨hrec.1.trans hset.1, hrec.2.trans hset.2⟩
    · rw [applyHeaders, if_neg ht]
      exact ih s (fun v hv => h v (List.mem_cons_of_mem _ hv))

theorem mem_unique_of_nodup_keys (hs : List (String × Option String))
    (hnd : (hs.map Prod.fst).Nodup) {k : String} {a b : Option String}
    (ha : (k, a) ∈ hs) (hb : (k, b) ∈ hs) : a = b := by
  induction hs with
  | nil => cases ha
  | cons p rest ih =>
    have hnd' : p.1 ∉ rest.map Prod.fst ∧ (rest.map Prod.fst).Nodup := by
      rw [List.map_cons] at hnd
      exact List.nodup_cons.mp hnd
    rcases List.mem_cons.mp ha with ha1 | ha2 <;>
      rcases List.mem_cons.mp hb with hb1 | hb2
    · exact congrArg Prod.snd (ha1.trans hb1.symm)
    · exfalso
      apply hnd'.1
      have hp : p.1 = k := by rw [← ha1]
      rw [hp]
      exact List.mem_map.mpr ⟨(k, b), hb2, rfl⟩
    · exfalso
      apply hnd'.1
      have hp : p.1 = k := by rw [← hb1]
      rw [hp]
      exact List.mem_map.mpr ⟨(k, a), ha2, rfl⟩
    · exact ih hnd'.2 ha2 hb2

theorem applyHeaders_apply (hs : List (String × Option String)) (s : ViewState)
    (k v : String) (hnd : (hs.map Prod.fst).Nodup) (hv : truthy (some v) = true)
    (hmem : (k, some v) ∈ hs) :
    (applyHeaders s hs).getHeader k = some v ∧
    headerGet (applyHeaders s hs).outer.headers k = some v := by
  induction hs generalizing s with
  | nil => cases hmem
  | cons p rest ih =>
    have hnd2 : p.1 ∉ rest.map Prod.fst ∧ (rest.map Prod.fst).Nodup := by
      rw [List.map_cons] at hnd
      exact List.nodup_cons.mp hnd
    rcases List.mem_cons.mp hmem with h1 | h2
    · subst h1
      rw [applyHeaders, if_pos hv]
      have hskip := applyHeaders_skip rest (s.setHeader k ((some v).getD "")) k
        (fun v' hv' => absurd (List.mem_map.mpr ⟨(k, v'), hv', rfl⟩) hnd2.1)
      have hset := getHeader_setHeader_self s k ((some v).getD "")
      exact ⟨hskip.1.trans hset.1, hskip.2.trans hset.2⟩
    · obtain ⟨k', v'⟩ := p
      by_cases ht : truthy v' = true
      · rw [applyHeaders, if_pos ht]
        exact ih _ hnd2.2 h2
      · rw [applyHeaders, if_neg ht]
        exact ih s hnd2.2 h2

/-! Claim theorems. -/

/-- Claim C1: whenever `end` runs with a recorded status other than 301, the
outer response ends up with `Cache-Control` exactly
`max-age=0, s-maxage=86400, stale-while-revalidate` (86400 = 60*60*24),
whatever `Cache-Control` value the request had set earlier, and the body
passed to `end` is written unchanged. -/
theorem c1_end_sets_fixed_cache_control (s : ViewState) (b : String)
    (h : ¬ s.status = some 301) :
    ∃ s', s.end' b = .ok s' ∧
      headerGet s'.outer.headers "Cache-Control" = some cacheControlHeaderValue ∧
      s'.outer.body = some b ∧
      cacheControlHeaderValue = "max-age=0, s-maxage=86400, stale-while-revalidate" ∧
      CACHE_CONTROL_MAX_AGE_SECONDS = 60 * 60 * 24 := by
  unfold ViewState.end'
  rw [if_neg h]
  refine ⟨_, rfl, ?_, rfl, rfl, rfl⟩
  simp [OuterRes.send, OuterRes.setHeader, headerGet_set_self]

/-- Witness for C1 at a state whose request had already set
`Cache-Control: no-store`. -/
theorem c1_witness :
    ¬ (sampleNon301.status = some 301) ∧
    ∃ s', sampleNon301.end' "<html>ok</html>" = .ok s' ∧
      headerGet s'.outer.headers "Cache-Control" = some cacheControlHeaderValue ∧
      s'.outer.body = some "<html>ok</html>" ∧
      cacheControlHeaderValue = "max-age=0, s-maxage=86400, stale-while-revalidate" ∧
      CACHE_CONTROL_MAX_AGE_SECONDS = 60 * 60 * 24 :=
  ⟨by decide, c1_end_sets_fixed_cache_control sampleNon301 "<html>ok</html>" (by decide)⟩

/-- Claim C2: a request whose url is exactly `/api/prerender` gets a 404
response with body `not found`, an already-resolved completion, and the
rendering client is never invoked (no adapter views are built). -/
theorem c2_self_endpoint_guard (o : OuterRes) (r : InboundReq) (a : ClientAction)
    (h : r.url = some "/api/prerender") :
    (handler o r a).outer.statusCode = some 404 ∧
    (handler o r a).outer.body = some "not found" ∧
    (handler o r a).completed = true ∧
    (handler o r a).clientInvoked = false := by
  have hg : guardTriggers r = true := by
    unfold guardTriggers
    rw [h]
    decide
  unfold handler
  rw [if_pos hg]
  exact ⟨rfl, rfl, rfl, rfl⟩

/-- Witness for C2 at the concrete request for `/api/prerender`. -/
theorem c2_witness :
    sampleGuardReq.url = some "/api/prerender" ∧
    ((handler freshOuter sampleGuardReq sampleAction).outer.statusCode = some 404 ∧
     (handler freshOuter sampleGuardReq sampleAction).outer.body = some "not found" ∧
     (handler freshOuter sampleGuardReq sampleAction).completed = true ∧
     (handler freshOuter sampleGuardReq sampleAction).clientInvoked = false) :=
  ⟨rfl, c2_self_endpoint_guard freshOuter sampleGuardReq sampleAction rfl⟩

/-- Counterexample to claim C3 as stated: the exit path where `end` runs
with recorded status 301 and no stored `location` header raises
`no location header` with the completion signal still unresolved (zero
resolutions), so not every possible exit path resolves the signal. -/
theorem c3_counterexample :
    sample301NoLocation.end' "<html>ok</html>" =
      .error ("no location header", sample301NoLocation) ∧
    sample301NoLocation.resolveCount = 0 :=
  ⟨rfl, rfl⟩

/-- Claim C3 (amended): every non-raising exit of `end` (normal body write
or 301 redirect with a stored location) and every exit of `next` (fetch
success or fetch failure) resolves the completion signal exactly once; a
raising exit of `end` leaves the resolution count unchanged. -/
theorem c3_resolution_discipline (s : ViewState) (b : String)
    (fr : Except String String) :
    (∀ s', s.end' b = .ok s' → s'.resolveCount = s.resolveCount + 1) ∧
    (∀ e s'', s.end' b = .error (e, s'') → s''.resolveCount = s.resolveCount) ∧
    (next' s fr).resolveCount = s.resolveCount + 1 := by
  refine ⟨?_, ?_, ?_⟩
  · intro s' hok
    unfold ViewState.end' at hok
    by_cases h301 : s.status = some 301
    · rw [if_pos h301] at hok
      by_cases ht : truthy (headerGet s.headers "location") = true
      · rw [if_pos ht] at hok
        rw [← Except.ok.inj hok]
      · rw [if_neg ht] at hok
        exact Except.noConfusion hok
    · rw [if_neg h301] at hok
      rw [← Except.ok.inj hok]
  · intro e s'' herr
    unfold ViewState.end' at herr
    by_cases h301 : s.status = some 301
    · rw [if_pos h301] at herr
      by_cases ht : truthy (headerGet s.headers "location") = true
      · rw [if_pos ht] at herr
        exact Except.noConfusion herr
      · rw [if_neg ht] at herr
        have h2 : s = s'' := congrArg Prod.snd (Except.error.inj herr)
        rw [← h2]
    · rw [if_neg h301] at herr
      exact Except.noConfusion herr
  · cases fr <;> rfl

/-- Witness for C3 (amended): the redirect exit, the raising exit, and the
fallback-failure exit, each at a concrete state. -/
theorem c3_witness :
    ({ sample301WithLocation with
         outer := sample301WithLocation.outer.redirect "/canonical-page"
         resolveCount := sample301WithLocation.resolveCount + 1 } :
       ViewState).resolveCount = sample301WithLocation.resolveCount + 1 ∧
    sample301NoLocation.resolveCount = sample301NoLocation.resolveCount ∧
    (next' sampleNon301 (.error "Error: fetch failed")).resolveCount =
      sampleNon301.resolveCount + 1 :=
  ⟨(c3_resolution_discipline sample301WithLocation "x" (.ok "y")).1 _ rfl,
   (c3_resolution_discipline sample301NoLocation "x" (.ok "y")).2.1
     "no location header" sample301NoLocation rfl,
   (c3_resolution_discipline sampleNon301 "x" (.error "Error: fetch failed")).2.2⟩

/-- Counterexample to claim C4 as stated: at a 301 state whose view header
map has a stored `location` header with value `""`, `end` raises
`no location header` — the JS check `if (!location)` treats the stored
empty string as falsy — instead of redirecting to that stored value. -/
theorem c4_counterexample :
    headerGet sample301EmptyLocation.headers "location" = some "" ∧
    sample301EmptyLocation.end' "ignored" =
      .error ("no location header", sample301EmptyLocation) :=
  ⟨rfl, rfl⟩

/-- Claim C4 (amended): `end` with recorded status 301 issues a native
redirect to the stored `location` value — leaving the outer body and
headers untouched and resolving the signal once — when the stored value is
non-empty, and raises `no location header` when the header is absent or
stored as the empty string; it never silently succeeds. -/
theorem c4_redirect_requires_nonempty_location (s : ViewState) (b : String)
    (h : s.status = some 301) :
    (∀ loc, headerGet s.headers "location" = some loc → loc ≠ "" →
      ∃ s', s.end' b = .ok s' ∧
        s'.outer.redirectedTo = some loc ∧
        s'.outer.body = s.outer.body ∧
        s'.outer.headers = s.outer.headers ∧
        s'.resolveCount = s.resolveCount + 1) ∧
    (headerGet s.headers "location" = none ∨
        headerGet s.headers "location" = some "" →
      s.end' b = .error ("no location header", s)) := by
  constructor
  · intro loc hl hne
    have ht : truthy (headerGet s.headers "location") = true := by
      rw [hl]
      simpa [truthy] using hne
    unfold ViewState.end'
    rw [if_pos h, if_pos ht, hl]
    exact ⟨_, rfl, rfl, rfl, rfl, rfl⟩
  · intro hl
    have ht : ¬ truthy (headerGet s.headers "location") = true := by
      rcases hl with hl | hl <;> rw [hl] <;> decide
    unfold ViewState.end'
    rw [if_pos h, if_neg ht]

/-- Witness for C4 (amended): the non-empty-location branch at a concrete
301 state, and the location-absent branch at another. -/
theorem c4_witness :
    (sample301WithLocation.status = some 301 ∧
     headerGet sample301WithLocation.headers "location" = some "/canonical-page" ∧
     "/canonical-page" ≠ "") ∧
    (∃ s', sample301WithLocation.end' "ignored" = .ok s' ∧
      s'.outer.redirectedTo = some "/canonical-page" ∧
      s'.outer.body = sample301WithLocation.outer.body ∧
      s'.outer.headers = sample301WithLocation.outer.headers ∧
      s'.resolveCount = sample301WithLocation.resolveCount + 1) ∧
    sample301NoLocation.end' "ignored" =
      .error ("no location header", sample301NoLocation) :=
  ⟨⟨rfl, rfl, by decide⟩,
   (c4_redirect_requires_nonempty_location sample301WithLocation "ignored" rfl).1
     "/canonical-page" rfl (by decide),
   (c4_redirect_requires_nonempty_location sample301NoLocation "ignored" rfl).2
     (Or.inl rfl)⟩

/-- Claim C5: the fallback continuation writes the fetched body with no
status change on fetch success, and writes status 500 with the error text
on fetch failure; each branch resolves the completion signal exactly once,
and the two effects are mutually exclusive (the success branch leaves the
status untouched, the failure branch writes only the error text). -/
theorem c5_fallback_outcomes (s : ViewState) (b e : String) :
    ((next' s (.ok b)).outer.body = some b ∧
     (next' s (.ok b)).outer.statusCode = s.outer.statusCode ∧
     (next' s (.ok b)).resolveCount = s.resolveCount + 1) ∧
    ((next' s (.error e)).outer.statusCode = some 500 ∧
     (next' s (.error e)).outer.body = some e ∧
     (next' s (.error e)).resolveCount = s.resolveCount + 1) :=
  ⟨⟨rfl, rfl, rfl⟩, ⟨rfl, rfl, rfl⟩⟩

/-- Claim C6: after `setHeader(name, value)` on the adapter response view,
`getHeader(name)` returns that value, and the same pair is readable on the
underlying outer response object — the mirroring happens in `setHeader`
itself, before any final write. -/
theorem c6_setHeader_roundtrip_and_mirror (s : ViewState) (k v : String) :
    (s.setHeader k v).getHeader k = some v ∧
    headerGet (s.setHeader k v).outer.headers k = some v :=
  getHeader_setHeader_self s k v

/-- Counterexample to claim C7 as stated: the `encrypted` flag of the
adapter request view is identical for a localhost (unencrypted, protocol
`http`) origin and a production (protocol `https`) origin — it is not a
function of the host distinguishing the two. -/
theorem c7_counterexample :
    (convertReq sampleLocalReq).connection.encrypted =
      (convertReq sampleReq).connection.encrypted ∧
    protocolFor sampleLocalReq = "http" ∧
    protocolFor sampleReq = "https" := by
  refine ⟨rfl, ?_, ?_⟩ <;> decide

/-- Claim C7 (amended): the `encrypted` flag of the adapter request view is
the constant `true` for every inbound request; what the source derives from
the host header is the protocol string used to reconstruct the original
URL (`http` exactly when the host contains `localhost`, else `https`). -/
theorem c7_encrypted_is_constant (r : InboundReq) :
    (convertReq r).connection.encrypted = true ∧
    protocolFor r = (if hostIncludesLocalhost r.host then "http" else "https") :=
  ⟨rfl, rfl⟩

/-- Claim C8: the handler is deterministic — two runs from fresh adapter
state on the same request with the same rendering-client behavior produce
identical response status and body. -/
theorem c8_handler_deterministic (o₁ o₂ : OuterRes) (r₁ r₂ : InboundReq)
    (a₁ a₂ : ClientAction) (ho₁ : o₁ = freshOuter) (ho₂ : o₂ = freshOuter)
    (hr : r₁ = r₂) (ha : a₁ = a₂) :
    (handler o₁ r₁ a₁).outer.statusCode = (handler o₂ r₂ a₂).outer.statusCode ∧
    (handler o₁ r₁ a₁).outer.body = (handler o₂ r₂ a₂).outer.body := by
  subst ho₁
  subst ho₂
  subst hr
  subst ha
  exact ⟨rfl, rfl⟩

/-- Witness for C8 at a concrete request and client behavior. -/
theorem c8_witness :
    freshOuter = freshOuter ∧
    ((handler freshOuter sampleReq sampleAction).outer.statusCode =
       (handler freshOuter sampleReq sampleAction).outer.statusCode ∧
     (handler freshOuter sampleReq sampleAction).outer.body =
       (handler freshOuter sampleReq sampleAction).outer.body) :=
  ⟨rfl, c8_handler_deterministic freshOuter freshOuter sampleReq sampleReq
    sampleAction sampleAction rfl rfl rfl rfl⟩

/-- Claim C9: the self-recursion guard matches by leading segment, not
equality: any defined url starting with `/api/prerender` (including strict
extensions) is answered 404 `not found` without invoking the rendering
client, while an undefined url skips the guard and the client runs. -/
theorem c9_guard_matches_by_leading_segment (o : OuterRes) (r : InboundReq)
    (a : ClientAction) :
    (∀ u, r.url = some u → startsWith' u "/api/prerender" = true →
      (handler o r a).outer.statusCode = some 404 ∧
      (handler o r a).outer.body = some "not found" ∧
      (handler o r a).clientInvoked = false) ∧
    (r.url = none → (handler o r a).clientInvoked = true) := by
  constructor
  · intro u hu hsw
    have hg : guardTriggers r = true := by
      unfold guardTriggers
      rw [hu]
      exact hsw
    unfold handler
    rw [if_pos hg]
    exact ⟨rfl, rfl, rfl⟩
  · intro hn
    have hg : guardTriggers r = false := by
      unfold guardTriggers
      rw [hn]
    unfold handler
    rw [if_neg (by simp [hg])]
    split <;> rfl

/-- Witness for C9: the strict extension `/api/prerender/asset/bitcoin` is
blocked, and an undefined url reaches the rendering client. -/
theorem c9_witness :
    samplePrefixReq.url = some "/api/prerender/asset/bitcoin" ∧
    startsWith' "/api/prerender/asset/bitcoin" "/api/prerender" = true ∧
    ((handler freshOuter samplePrefixReq sampleAction).outer.statusCode = some 404 ∧
     (handler freshOuter samplePrefixReq sampleAction).outer.body = some "not found" ∧
     (handler freshOuter samplePrefixReq sampleAction).clientInvoked = false) ∧
    sampleNoUrlReq.url = none ∧
    (handler freshOuter sampleNoUrlReq sampleAction).clientInvoked = true :=
  ⟨rfl, by decide,
   (c9_guard_matches_by_leading_segment freshOuter samplePrefixReq sampleAction).1
     "/api/prerender/asset/bitcoin" rfl (by decide),
   rfl,
   (c9_guard_matches_by_leading_segment freshOuter sampleNoUrlReq sampleAction).2 rfl⟩

/-- Claim C10: `writeHead` always records the status and applies it to the
outer response; with unique header keys (as a JS object guarantees), an
entry with a falsy value (undefined or empty string) is silently skipped —
its key reads the same as before, both in the view and on the outer
response — while an entry with a truthy value is applied via `setHeader`,
becoming readable in both places. -/
theorem c10_writeHead_skips_falsy (s : ViewState) (st : Nat)
    (hs : List (String × Option String)) (hnd : (hs.map Prod.fst).Nodup) :
    (s.writeHead st hs).status = some st ∧
    (s.writeHead st hs).outer.statusCode = some st ∧
    (∀ k, ((k, none) ∈ hs ∨ (k, some "") ∈ hs) →
      (s.writeHead st hs).getHeader k = s.getHeader k ∧
      headerGet (s.writeHead st hs).outer.headers k = headerGet s.outer.headers k) ∧
    (∀ k v, v ≠ "" → (k, some v) ∈ hs →
      (s.writeHead st hs).getHeader k = some v ∧
      headerGet (s.writeHead st hs).outer.headers k = some v) := by
  unfold ViewState.writeHead
  refine ⟨(applyHeaders_status hs _).1, (applyHeaders_status hs _).2, ?_, ?_⟩
  · intro k hk
    have hWeak : ∀ v, (k, v) ∈ hs → truthy v = false := by
      intro v hv
      rcases hk with hk | hk
      · rw [mem_unique_of_nodup_keys hs hnd hv hk]
        rfl
      · rw [mem_unique_of_nodup_keys hs hnd hv hk]
        rfl
    exact applyHeaders_skip hs _ k hWeak
  · intro k v hv hmem
    have ht : truthy (some v) = true := by
      simp [truthy, hv]
    exact applyHeaders_apply hs _ k v hnd ht hmem

/-- Witness for C10 at a concrete header dict mixing a truthy entry, an
empty-string entry, and an undefined entry, over a state that had
`x-empty` unset. -/
theorem c10_witness :
    ((sampleHeadersList.map Prod.fst).Nodup ∧
     (sampleHeadersList.contains ("x-empty", some "")) = true) ∧
    (sampleNon301.writeHead 200 sampleHeadersList).status = some 200 ∧
    (sampleNon301.writeHead 200 sampleHeadersList).outer.statusCode = some 200 ∧
    ((sampleNon301.writeHead 200 sampleHeadersList).getHeader "x-empty" =
       sampleNon301.getHeader "x-empty" ∧
     headerGet (sampleNon301.writeHead 200 sampleHeadersList).outer.headers "x-empty" =
       headerGet sampleNon301.outer.headers "x-empty") ∧
    ((sampleNon301.writeHead 200 sampleHeadersList).getHeader "content-type" =
       some "text/html" ∧
     headerGet (sampleNon301.writeHead 200 sampleHeadersList).outer.headers "content-type" =
       some "text/html") :=
  ⟨⟨by decide, by decide⟩,
   (c10_writeHead_skips_falsy sampleNon301 200 sampleHeadersList (by decide)).1,
   (c10_writeHead_skips_falsy sampleNon301 200 sampleHeadersList (by decide)).2.1,
   (c10_writeHead_skips_falsy sampleNon301 200 sampleHeadersList (by decide)).2.2.1
     "x-empty" (Or.inr (by decide)),
   (c10_writeHead_skips_falsy sampleNon301 200 sampleHeadersList (by decide)).2.2.2
     "content-type" "text/html" (by decide) (by decide)⟩

end Prerender
